import Mathlib

/-
Verification of the py-operrouter client SDK against its specification.

The development shallowly embeds the three transport clients
(HTTPClient in src/py_operrouter/client/http_client.py,
GRPCClient in src/py_operrouter/client/grpc_client.py,
FFIClient in src/py_operrouter/client/ffi_client.py) and the shared
response records (src/py_operrouter/types.py).

Decoded JSON documents are modelled by the inductive type `Json`;
Python dictionaries are association lists, Python truthiness is the
function `Json.truthy`, and the Python expression "a or b" is `pyOr`.
Python exceptions (ValueError, AttributeError) are modelled by the
type `PyError`; an operation that can raise returns `Except PyError R`.
-/

set_option autoImplicit false

/-- Decoded JSON values as produced by json.loads: null, booleans,
numbers, strings, arrays and objects. Objects are association lists
of distinct keys (json.loads keeps one binding per key). -/
inductive Json where
  | null
  | bool (b : Bool)
  | num (n : Int)
  | str (s : String)
  | arr (elems : List Json)
  | obj (fields : List (String × Json))
deriving Repr

/-- Python dictionaries backing decoded JSON objects. -/
abbrev JsonObj := List (String × Json)

/-- First binding of a key in a decoded object, Option-valued. -/
def lookupField : JsonObj → String → Option Json
  | [], _ => Option.none
  | (k, v) :: rest, key => if k = key then some v else lookupField rest key

/-- Python dict.get with a default: the binding of the key when present,
the default otherwise. -/
def dictGet (fields : JsonObj) (key : String) (dflt : Json) : Json :=
  (lookupField fields key).getD dflt

/-- Python membership test "key in data" on a decoded object. -/
def hasKey (fields : JsonObj) (key : String) : Bool :=
  (lookupField fields key).isSome

/-- Python truthiness of a decoded JSON value: None, False, zero, the
empty string, the empty list and the empty dict are falsy. -/
def Json.truthy : Json → Bool
  | .null => false
  | .bool b => b
  | .num n => n != 0
  | .str s => s != ""
  | .arr elems => !elems.isEmpty
  | .obj fields => !fields.isEmpty

/-- Python "a or b": the left operand when truthy, otherwise the right. -/
def pyOr (a b : Json) : Json :=
  if a.truthy then a else b

/-- Python exceptions raised by the client code paths modelled here:
ValueError (carrying the offending decoded value) and AttributeError
(attribute access on an object that lacks it, e.g. .get on a non-dict). -/
inductive PyError where
  | valueError (msg : String) (payload : Json)
  | attributeError (attr : String)
deriving Repr

/-- Python attribute call result.get(key, default): succeeds with the
dict lookup when the receiver is a dict, raises AttributeError otherwise. -/
def Json.objGet (v : Json) (key : String) (dflt : Json) : Except PyError Json :=
  match v with
  | .obj fields => .ok (dictGet fields key dflt)
  | _ => .error (.attributeError "get")

/-! Shared response records (src/py_operrouter/types.py). The dataclass
fields are dynamically typed in Python; the HTTP and FFI clients fill
them with whatever decoded JSON value the reply carried, so the fields
are modelled as `Json`. -/

/-- Response from the ping operation. -/
structure PingResponse where
  success : Json
  message : Json
deriving Repr

/-- Response from config operations. -/
structure ConfigResponse where
  success : Json
  message : Json
deriving Repr

/-- Response from DataSource operations. -/
structure DataSourceResponse where
  success : Json
  message : Json
deriving Repr

/-- Response from a DataSource query, with rows. -/
structure DataSourceQueryResponse where
  success : Json
  rows : Json
  message : Json
deriving Repr

/-- Response from LLM operations. -/
structure LLMResponse where
  success : Json
  message : Json
deriving Repr

/-- Response from LLM text generation. -/
structure LLMGenerateResponse where
  success : Json
  text : Json
  message : Json
deriving Repr

/-- Response from LLM chat. -/
structure LLMChatResponse where
  success : Json
  text : Json
  message : Json
deriving Repr

/-- Response from LLM embedding generation. -/
structure LLMEmbeddingResponse where
  success : Json
  embedding : Json
  message : Json
deriving Repr

/-- Operator metadata record. -/
structure Metadata where
  name : Json
  version : Json
  description : Json
deriving Repr

namespace HTTPClient

/-- HTTPClient._call_rpc, after the HTTP layer delivered a 2xx body that
decoded to the object `data`: if the body contains an "error" field the
call raises ValueError("RPC error: ..."), otherwise it returns
data.get("result", the empty dict). -/
def call_rpc (data : JsonObj) : Except PyError Json :=
  if hasKey data "error" then
    .error (.valueError "RPC error" (dictGet data "error" .null))
  else
    .ok (dictGet data "result" (.obj []))

/-- Response construction of HTTPClient.ping from the decoded result.
Each result.get raises AttributeError unless the result is a dict; the
three reads share the receiver, so the whole construction succeeds
exactly when the result is a dict. -/
def ping_response (result : Json) : Except PyError PingResponse :=
  match result with
  | .obj fields =>
      .ok { success := dictGet fields "success" (.bool false)
            message := pyOr (dictGet fields "error" (.str ""))
                            (dictGet fields "message" (.str "")) }
  | _ => .error (.attributeError "get")

/-- Response construction of HTTPClient.validate_config from the decoded result. -/
def validate_config_response (result : Json) : Except PyError ConfigResponse :=
  match result with
  | .obj fields =>
      .ok { success := dictGet fields "success" (.bool false)
            message := pyOr (dictGet fields "error" (.str ""))
                            (dictGet fields "message" (.str "")) }
  | _ => .error (.attributeError "get")

/-- Response construction of HTTPClient.load_config from the decoded result. -/
def load_config_response (result : Json) : Except PyError ConfigResponse :=
  match result with
  | .obj fields =>
      .ok { success := dictGet fields "success" (.bool false)
            message := pyOr (dictGet fields "error" (.str ""))
                            (dictGet fields "message" (.str "")) }
  | _ => .error (.attributeError "get")

/-- Response construction of HTTPClient.get_metadata from the decoded
result: result.get("metadata", the empty dict) and then field reads with
empty-string defaults; description defaults to None. -/
def get_metadata_response (result : Json) : Except PyError Metadata :=
  match result with
  | .obj fields =>
      match dictGet fields "metadata" (.obj []) with
      | .obj mfields =>
          .ok { name := dictGet mfields "name" (.str "")
                version := dictGet mfields "version" (.str "")
                description := dictGet mfields "description" .null }
      | _ => .error (.attributeError "get")
  | _ => .error (.attributeError "get")

/-- Response construction of HTTPClient.create_datasource from the decoded result. -/
def create_datasource_response (result : Json) : Except PyError DataSourceResponse :=
  match result with
  | .obj fields =>
      .ok { success := dictGet fields "success" (.bool false)
            message := pyOr (dictGet fields "error" (.str ""))
                            (dictGet fields "message" (.str "")) }
  | _ => .error (.attributeError "get")

/-- Response construction of HTTPClient.query_datasource from the decoded
result: rows are copied from result.get("rows", the empty list). -/
def query_datasource_response (result : Json) : Except PyError DataSourceQueryResponse :=
  match result with
  | .obj fields =>
      .ok { success := dictGet fields "success" (.bool false)
            rows := dictGet fields "rows" (.arr [])
            message := pyOr (dictGet fields "error" (.str ""))
                            (dictGet fields "message" (.str "")) }
  | _ => .error (.attributeError "get")

/-- Response construction of HTTPClient.execute_datasource from the decoded result. -/
def execute_datasource_response (result : Json) : Except PyError DataSourceResponse :=
  match result with
  | .obj fields =>
      .ok { success := dictGet fields "success" (.bool false)
            message := pyOr (dictGet fields "error" (.str ""))
                            (dictGet fields "message" (.str "")) }
  | _ => .error (.attributeError "get")

/-- Response construction of HTTPClient.insert_datasource from the decoded result. -/
def insert_datasource_response (result : Json) : Except PyError DataSourceResponse :=
  match result with
  | .obj fields =>
      .ok { success := dictGet fields "success" (.bool false)
            message := pyOr (dictGet fields "error" (.str ""))
                            (dictGet fields "message" (.str "")) }
  | _ => .error (.attributeError "get")

/-- Response construction of HTTPClient.ping_datasource from the decoded
result: success is result.get("healthy", False) or result.get("success", False). -/
def ping_datasource_response (result : Json) : Except PyError DataSourceResponse :=
  match result with
  | .obj fields =>
      .ok { success := pyOr (dictGet fields "healthy" (.bool false))
                            (dictGet fields "success" (.bool false))
            message := pyOr (dictGet fields "error" (.str ""))
                            (dictGet fields "message" (.str "")) }
  | _ => .error (.attributeError "get")

/-- Response construction of HTTPClient.close_datasource from the decoded result. -/
def close_datasource_response (result : Json) : Except PyError DataSourceResponse :=
  match result with
  | .obj fields =>
      .ok { success := dictGet fields "success" (.bool false)
            message := pyOr (dictGet fields "error" (.str ""))
                            (dictGet fields "message" (.str "")) }
  | _ => .error (.attributeError "get")

/-- Response construction of HTTPClient.create_llm from the decoded result. -/
def create_llm_response (result : Json) : Except PyError LLMResponse :=
  match result with
  | .obj fields =>
      .ok { success := dictGet fields "success" (.bool false)
            message := pyOr (dictGet fields "error" (.str ""))
                            (dictGet fields "message" (.str "")) }
  | _ => .error (.attributeError "get")

/-- Response construction of HTTPClient.generate_llm from the decoded
result: text is copied from result.get("text", the empty string). -/
def generate_llm_response (result : Json) : Except PyError LLMGenerateResponse :=
  match result with
  | .obj fields =>
      .ok { success := dictGet fields "success" (.bool false)
            text := dictGet fields "text" (.str "")
            message := pyOr (dictGet fields "error" (.str ""))
                            (dictGet fields "message" (.str "")) }
  | _ => .error (.attributeError "get")

/-- Response construction of HTTPClient.chat_llm from the decoded result. -/
def chat_llm_response (result : Json) : Except PyError LLMChatResponse :=
  match result with
  | .obj fields =>
      .ok { success := dictGet fields "success" (.bool false)
            text := dictGet fields "text" (.str "")
            message := pyOr (dictGet fields "error" (.str ""))
                            (dictGet fields "message" (.str "")) }
  | _ => .error (.attributeError "get")

/-- Response construction of HTTPClient.embedding_llm from the decoded
result: embedding is copied from result.get("embedding", the empty list). -/
def embedding_llm_response (result : Json) : Except PyError LLMEmbeddingResponse :=
  match result with
  | .obj fields =>
      .ok { success := dictGet fields "success" (.bool false)
            embedding := dictGet fields "embedding" (.arr [])
            message := pyOr (dictGet fields "error" (.str ""))
                            (dictGet fields "message" (.str "")) }
  | _ => .error (.attributeError "get")

/-- Response construction of HTTPClient.ping_llm from the decoded result:
success is result.get("healthy", False) or result.get("success", False). -/
def ping_llm_response (result : Json) : Except PyError LLMResponse :=
  match result with
  | .obj fields =>
      .ok { success := pyOr (dictGet fields "healthy" (.bool false))
                            (dictGet fields "success" (.bool false))
            message := pyOr (dictGet fields "error" (.str ""))
                            (dictGet fields "message" (.str "")) }
  | _ => .error (.attributeError "get")

/-- Response construction of HTTPClient.close_llm from the decoded result. -/
def close_llm_response (result : Json) : Except PyError LLMResponse :=
  match result with
  | .obj fields =>
      .ok { success := dictGet fields "success" (.bool false)
            message := pyOr (dictGet fields "error" (.str ""))
                            (dictGet fields "message" (.str "")) }
  | _ => .error (.attributeError "get")

/-- Full HTTPClient.ping pipeline over a decoded 2xx body. -/
def ping (data : JsonObj) : Except PyError PingResponse :=
  (call_rpc data).bind ping_response

/-- Full HTTPClient.validate_config pipeline over a decoded 2xx body. -/
def validate_config (data : JsonObj) : Except PyError ConfigResponse :=
  (call_rpc data).bind validate_config_response

/-- Full HTTPClient.load_config pipeline over a decoded 2xx body. -/
def load_config (data : JsonObj) : Except PyError ConfigResponse :=
  (call_rpc data).bind load_config_response

/-- Full HTTPClient.get_metadata pipeline over a decoded 2xx body. -/
def get_metadata (data : JsonObj) : Except PyError Metadata :=
  (call_rpc data).bind get_metadata_response

/-- Full HTTPClient.create_datasource pipeline over a decoded 2xx body. -/
def create_datasource (data : JsonObj) : Except PyError DataSourceResponse :=
  (call_rpc data).bind create_datasource_response

/-- Full HTTPClient.query_datasource pipeline over a decoded 2xx body. -/
def query_datasource (data : JsonObj) : Except PyError DataSourceQueryResponse :=
  (call_rpc data).bind query_datasource_response

/-- Full HTTPClient.execute_datasource pipeline over a decoded 2xx body. -/
def execute_datasource (data : JsonObj) : Except PyError DataSourceResponse :=
  (call_rpc data).bind execute_datasource_response

/-- Full HTTPClient.insert_datasource pipeline over a decoded 2xx body. -/
def insert_datasource (data : JsonObj) : Except PyError DataSourceResponse :=
  (call_rpc data).bind insert_datasource_response

/-- Full HTTPClient.ping_datasource pipeline over a decoded 2xx body. -/
def ping_datasource (data : JsonObj) : Except PyError DataSourceResponse :=
  (call_rpc data).bind ping_datasource_response

/-- Full HTTPClient.close_datasource pipeline over a decoded 2xx body. -/
def close_datasource (data : JsonObj) : Except PyError DataSourceResponse :=
  (call_rpc data).bind close_datasource_response

/-- Full HTTPClient.create_llm pipeline over a decoded 2xx body. -/
def create_llm (data : JsonObj) : Except PyError LLMResponse :=
  (call_rpc data).bind create_llm_response

/-- Full HTTPClient.generate_llm pipeline over a decoded 2xx body. -/
def generate_llm (data : JsonObj) : Except PyError LLMGenerateResponse :=
  (call_rpc data).bind generate_llm_response

/-- Full HTTPClient.chat_llm pipeline over a decoded 2xx body. -/
def chat_llm (data : JsonObj) : Except PyError LLMChatResponse :=
  (call_rpc data).bind chat_llm_response

/-- Full HTTPClient.embedding_llm pipeline over a decoded 2xx body. -/
def embedding_llm (data : JsonObj) : Except PyError LLMEmbeddingResponse :=
  (call_rpc data).bind embedding_llm_response

/-- Full HTTPClient.ping_llm pipeline over a decoded 2xx body. -/
def ping_llm (data : JsonObj) : Except PyError LLMResponse :=
  (call_rpc data).bind ping_llm_response

/-- Full HTTPClient.close_llm pipeline over a decoded 2xx body. -/
def close_llm (data : JsonObj) : Except PyError LLMResponse :=
  (call_rpc data).bind close_llm_response

end HTTPClient

namespace FFIClient

/-- Names of the FFI library tried by platform
(FFIClient._load_ffi_library, lib_names). -/
def lib_names : List String :=
  ["liboperrouter_core_ffi.so", "liboperrouter_core_ffi.dylib", "operrouter_core_ffi.dll"]

/-- Python os.path.join for the relative components used here. -/
def pathJoin (a b : String) : String := a ++ "/" ++ b

/-- Directory of the bridges build tried last
(os.path.join(script_dir, "../../../../bridges/operrouter-core-ffi/target/release")). -/
def bridge_dir (script_dir : String) : String :=
  pathJoin script_dir "../../../../bridges/operrouter-core-ffi/target/release"

/-- Candidate list built by FFIClient._load_ffi_library, in program order:
the explicit path argument when truthy, then the OPERROUTER_FFI_PATH
environment value when truthy, then the platform library names, then the
same names inside the bridges build directory. An Optional[str] is falsy
in Python when it is None or the empty string. -/
def load_candidates (path env_path : Option String) (script_dir : String) : List String :=
  let candidates : List String := []
  let candidates := match path with
    | some p => if p != "" then candidates ++ [p] else candidates
    | Option.none => candidates
  let candidates := match env_path with
    | some e => if e != "" then candidates ++ [e] else candidates
    | Option.none => candidates
  let candidates := candidates ++ lib_names
  let candidates := candidates ++ lib_names.map (fun n => pathJoin (bridge_dir script_dir) n)
  candidates

/-- FFIClient._load_ffi_library: try ctypes.CDLL on each candidate in
order, keeping the first that loads (the predicate `loadable` abstracts
which candidates ctypes.CDLL accepts without raising OSError); when none
loads, raise RuntimeError with the remediation message. -/
def load_ffi_library (loadable : String → Bool) (path env_path : Option String)
    (script_dir : String) : Except String String :=
  match (load_candidates path env_path script_dir).find? loadable with
  | some c => .ok c
  | Option.none =>
      .error "Failed to load FFI library. Set OPERROUTER_FFI_PATH or build the library."

/-- FFIClient._call_ffi: the native call produced `reply`, where
Option.none stands for a NULL pointer and `some s` for a non-null pointer
whose contents decode to the UTF-8 string `s`. The guard "if not
result_ptr" is a Python truthiness test: the restype of every reply is
ctypes.c_char_p, which converts a NULL pointer to None and a non-null
pointer to a bytes object, and empty bytes are falsy exactly like None.
On a falsy reply the function returns the substitute dict with success
False and error "FFI call returned null" and performs no free; otherwise
it parses the string as JSON inside try/finally, freeing the reply
through operrouter_free_string exactly once on both the parse success
path and the parse failure path (json.loads raising ValueError).
The second component counts the operrouter_free_string invocations. -/
def call_ffi (reply : Option String) (parse : String → Option Json) :
    Except PyError Json × Nat :=
  match reply with
  | Option.none =>
      (.ok (.obj [("success", .bool false), ("error", .str "FFI call returned null")]), 0)
  | some s =>
      if s = "" then
        (.ok (.obj [("success", .bool false), ("error", .str "FFI call returned null")]), 0)
      else
        match parse s with
        | some v => (.ok v, 1)
        | Option.none => (.error (.valueError "json decode failed" (.str s)), 1)

/-- Response construction of FFIClient.ping from the decoded result
(ffi_client.py builds the same record shape as the HTTP client). -/
def ping_response (result : Json) : Except PyError PingResponse :=
  match result with
  | .obj fields =>
      .ok { success := dictGet fields "success" (.bool false)
            message := pyOr (dictGet fields "error" (.str ""))
                            (dictGet fields "message" (.str "")) }
  | _ => .error (.attributeError "get")

/-- Response construction of FFIClient.validate_config from the decoded result. -/
def validate_config_response (result : Json) : Except PyError ConfigResponse :=
  match result with
  | .obj fields =>
      .ok { success := dictGet fields "success" (.bool false)
            message := pyOr (dictGet fields "error" (.str ""))
                            (dictGet fields "message" (.str "")) }
  | _ => .error (.attributeError "get")

/-- Response construction of FFIClient.load_config from the decoded result. -/
def load_config_response (result : Json) : Except PyError ConfigResponse :=
  match result with
  | .obj fields =>
      .ok { success := dictGet fields "success" (.bool false)
            message := pyOr (dictGet fields "error" (.str ""))
                            (dictGet fields "message" (.str "")) }
  | _ => .error (.attributeError "get")

/-- Response construction of FFIClient.create_datasource from the decoded result. -/
def create_datasource_response (result : Json) : Except PyError DataSourceResponse :=
  match result with
  | .obj fields =>
      .ok { success := dictGet fields "success" (.bool false)
            message := pyOr (dictGet fields "error" (.str ""))
                            (dictGet fields "message" (.str "")) }
  | _ => .error (.attributeError "get")

/-- Response construction of FFIClient.query_datasource from the decoded result. -/
def query_datasource_response (result : Json) : Except PyError DataSourceQueryResponse :=
  match result with
  | .obj fields =>
      .ok { success := dictGet fields "success" (.bool false)
            rows := dictGet fields "rows" (.arr [])
            message := pyOr (dictGet fields "error" (.str ""))
                            (dictGet fields "message" (.str "")) }
  | _ => .error (.attributeError "get")

/-- Response construction of FFIClient.execute_datasource from the decoded result. -/
def execute_datasource_response (result : Json) : Except PyError DataSourceResponse :=
  match result with
  | .obj fields =>
      .ok { success := dictGet fields "success" (.bool false)
            message := pyOr (dictGet fields "error" (.str ""))
                            (dictGet fields "message" (.str "")) }
  | _ => .error (.attributeError "get")

/-- Response construction of FFIClient.insert_datasource from the decoded result. -/
def insert_datasource_response (result : Json) : Except PyError DataSourceResponse :=
  match result with
  | .obj fields =>
      .ok { success := dictGet fields "success" (.bool false)
            message := pyOr (dictGet fields "error" (.str ""))
                            (dictGet fields "message" (.str "")) }
  | _ => .error (.attributeError "get")

/-- Response construction of FFIClient.ping_datasource from the decoded
result: success is result.get("healthy", False) or result.get("success", False). -/
def ping_datasource_response (result : Json) : Except PyError DataSourceResponse :=
  match result with
  | .obj fields =>
      .ok { success := pyOr (dictGet fields "healthy" (.bool false))
                            (dictGet fields "success" (.bool false))
            message := pyOr (dictGet fields "error" (.str ""))
                            (dictGet fields "message" (.str "")) }
  | _ => .error (.attributeError "get")

/-- Response construction of FFIClient.close_datasource from the decoded result. -/
def close_datasource_response (result : Json) : Except PyError DataSourceResponse :=
  match result with
  | .obj fields =>
      .ok { success := dictGet fields "success" (.bool false)
            message := pyOr (dictGet fields "error" (.str ""))
                            (dictGet fields "message" (.str "")) }
  | _ => .error (.attributeError "get")

/-- Response construction of FFIClient.create_llm from the decoded result. -/
def create_llm_response (result : Json) : Except PyError LLMResponse :=
  match result with
  | .obj fields =>
      .ok { success := dictGet fields "success" (.bool false)
            message := pyOr (dictGet fields "error" (.str ""))
                            (dictGet fields "message" (.str "")) }
  | _ => .error (.attributeError "get")

/-- Response construction of FFIClient.generate_llm from the decoded result. -/
def generate_llm_response (result : Json) : Except PyError LLMGenerateResponse :=
  match result with
  | .obj fields =>
      .ok { success := dictGet fields "success" (.bool false)
            text := dictGet fields "text" (.str "")
            message := pyOr (dictGet fields "error" (.str ""))
                            (dictGet fields "message" (.str "")) }
  | _ => .error (.attributeError "get")

/-- Response construction of FFIClient.chat_llm from the decoded result. -/
def chat_llm_response (result : Json) : Except PyError LLMChatResponse :=
  match result with
  | .obj fields =>
      .ok { success := dictGet fields "success" (.bool false)
            text := dictGet fields "text" (.str "")
            message := pyOr (dictGet fields "error" (.str ""))
                            (dictGet fields "message" (.str "")) }
  | _ => .error (.attributeError "get")

/-- Response construction of FFIClient.embedding_llm from the decoded result. -/
def embedding_llm_response (result : Json) : Except PyError LLMEmbeddingResponse :=
  match result with
  | .obj fields =>
      .ok { success := dictGet fields "success" (.bool false)
            embedding := dictGet fields "embedding" (.arr [])
            message := pyOr (dictGet fields "error" (.str ""))
                            (dictGet fields "message" (.str "")) }
  | _ => .error (.attributeError "get")

/-- Response construction of FFIClient.ping_llm from the decoded result:
success is result.get("healthy", False) or result.get("success", False). -/
def ping_llm_response (result : Json) : Except PyError LLMResponse :=
  match result with
  | .obj fields =>
      .ok { success := pyOr (dictGet fields "healthy" (.bool false))
                            (dictGet fields "success" (.bool false))
            message := pyOr (dictGet fields "error" (.str ""))
                            (dictGet fields "message" (.str "")) }
  | _ => .error (.attributeError "get")

/-- Response construction of FFIClient.close_llm from the decoded result. -/
def close_llm_response (result : Json) : Except PyError LLMResponse :=
  match result with
  | .obj fields =>
      .ok { success := dictGet fields "success" (.bool false)
            message := pyOr (dictGet fields "error" (.str ""))
                            (dictGet fields "message" (.str "")) }
  | _ => .error (.attributeError "get")

/-- Full FFIClient.ping pipeline over the native reply: _call_ffi followed
by response construction, with the free count carried along. -/
def ping (reply : Option String) (parse : String → Option Json) :
    Except PyError PingResponse × Nat :=
  let r := call_ffi reply parse
  ((r.1).bind ping_response, r.2)

/-- Full FFIClient.query_datasource pipeline over the native reply. -/
def query_datasource (reply : Option String) (parse : String → Option Json) :
    Except PyError DataSourceQueryResponse × Nat :=
  let r := call_ffi reply parse
  ((r.1).bind query_datasource_response, r.2)

/-- Full FFIClient.ping_datasource pipeline over the native reply. -/
def ping_datasource (reply : Option String) (parse : String → Option Json) :
    Except PyError DataSourceResponse × Nat :=
  let r := call_ffi reply parse
  ((r.1).bind ping_datasource_response, r.2)

/-- Full FFIClient.generate_llm pipeline over the native reply. -/
def generate_llm (reply : Option String) (parse : String → Option Json) :
    Except PyError LLMGenerateResponse × Nat :=
  let r := call_ffi reply parse
  ((r.1).bind generate_llm_response, r.2)

/-- Full FFIClient.embedding_llm pipeline over the native reply. -/
def embedding_llm (reply : Option String) (parse : String → Option Json) :
    Except PyError LLMEmbeddingResponse × Nat :=
  let r := call_ffi reply parse
  ((r.1).bind embedding_llm_response, r.2)

/-- Full FFIClient.ping_llm pipeline over the native reply. -/
def ping_llm (reply : Option String) (parse : String → Option Json) :
    Except PyError LLMResponse × Nat :=
  let r := call_ffi reply parse
  ((r.1).bind ping_llm_response, r.2)

end FFIClient

/-- Configuration for a DataSource connection (src/py_operrouter/types.py):
driver, host, port, database, and optional username and password. -/
structure DataSourceConfig where
  driver : String
  host : String
  port : Int
  database : String
  username : Option String := Option.none
  password : Option String := Option.none
deriving Repr

/-- Python str() of an Optional[str] as interpolated by an f-string:
the string itself when present, the literal text "None" when absent. -/
def pyStrOfOpt : Option String → String
  | some s => s
  | Option.none => "None"

namespace GRPCClient

/-- Dynamically typed Python values crossing the gRPC row boundary.
Floating point numbers are carried as their 64-bit pattern (a Nat),
which both conversion directions copy verbatim; bytes are a byte list.
The `other` constructor stands for any Python object of another type,
identified by its str() rendering, which the encoder stringifies. -/
inductive PyValue where
  | none
  | bool (b : Bool)
  | int (n : Int)
  | float (bits : Nat)
  | str (s : String)
  | bytes (bs : List Nat)
  | other (rendered : String)
deriving Repr, DecidableEq

/-- Wire protobuf Value message, a tagged union over the oneof named
"value" with cases null, bool, int, float, string and bytes (generated
operrouter_pb2; modelled from the spec, which fixes the tagged-union
cases, since the generated module is not under src/).
The `unset` case is a message with no oneof member set, for which
WhichOneof returns None. -/
inductive ProtoValue where
  | unset
  | null_value (code : Int)
  | bool_value (b : Bool)
  | int_value (n : Int)
  | float_value (bits : Nat)
  | string_value (s : String)
  | bytes_value (bs : List Nat)
deriving Repr, DecidableEq

/-- GRPCClient._python_value_to_proto: the isinstance chain of the source
in order (None, bool before int since Python bool is an int subtype, int,
float, str, bytes), stringifying any other type as a fallback. -/
def _python_value_to_proto : PyValue → ProtoValue
  | .none => .null_value 0
  | .bool b => .bool_value b
  | .int n => .int_value n
  | .float bits => .float_value bits
  | .str s => .string_value s
  | .bytes bs => .bytes_value bs
  | .other rendered => .string_value rendered

/-- GRPCClient._proto_value_to_python: a missing message (None argument,
caught by the guard "if not value or not hasattr(value, ...)") yields
None; otherwise the WhichOneof dispatch of the source, with int() on the
int case and None both for the null case and for an unset oneof.
Modelled from the spec for the guard on a present message: the generated
Value message carries the oneof named "value", so the guard lets every
present message through to the WhichOneof dispatch. -/
def _proto_value_to_python : Option ProtoValue → PyValue
  | Option.none => .none
  | some .unset => .none
  | some (.null_value _) => .none
  | some (.bool_value b) => .bool b
  | some (.int_value n) => .int n
  | some (.float_value bits) => .float bits
  | some (.string_value s) => .str s
  | some (.bytes_value bs) => .bytes bs

/-- GRPCClient._datasource_type_to_enum: fixed lookup table from the
lowercased driver string to the protobuf enum code, defaulting to 0. -/
def _datasource_type_to_enum (driver : String) : Int :=
  let mapping : List (String × Int) :=
    [("postgres", 1), ("mysql", 2), ("redis", 3), ("mongodb", 4), ("kafka", 5)]
  (List.lookup driver.toLower mapping).getD 0

/-- GRPCClient._llm_provider_to_enum: fixed lookup table from the
lowercased provider string to the protobuf enum code, defaulting to 0. -/
def _llm_provider_to_enum (provider : String) : Int :=
  let mapping : List (String × Int) :=
    [("openai", 1), ("ollama", 2), ("anthropic", 3), ("local", 4)]
  (List.lookup provider.toLower mapping).getD 0

/-- GRPCClient._message_role_to_enum: fixed lookup table from the
lowercased role string to the protobuf enum code, defaulting to 0. -/
def _message_role_to_enum (role : String) : Int :=
  let mapping : List (String × Int) :=
    [("system", 1), ("user", 2), ("assistant", 3)]
  (List.lookup role.toLower mapping).getD 0

/-- GRPCClient._build_datasource_url: postgres and mysql (compared
case-sensitively against the raw driver string) interpolate
username:password@host:port/database into the URL, every other driver
yields driver://host:port. Optional credentials interpolate through
Python str(), so an absent username or password appears as the literal
text "None". -/
def _build_datasource_url (config : DataSourceConfig) : String :=
  if config.driver = "postgres" then
    "postgresql://" ++ pyStrOfOpt config.username ++ ":" ++ pyStrOfOpt config.password
      ++ "@" ++ config.host ++ ":" ++ toString config.port ++ "/" ++ config.database
  else if config.driver = "mysql" then
    "mysql://" ++ pyStrOfOpt config.username ++ ":" ++ pyStrOfOpt config.password
      ++ "@" ++ config.host ++ ":" ++ toString config.port ++ "/" ++ config.database
  else
    config.driver ++ "://" ++ config.host ++ ":" ++ toString config.port

/-- Wire protobuf DataSourceConfig message as filled by
GRPCClient.create_datasource: only a type enum code and a URL. -/
structure DataSourceConfigWire where
  type : Int
  url : String
deriving Repr, DecidableEq

/-- Request content sent on the wire by GRPCClient.create_datasource:
the name and a DataSourceConfig message holding the enum code of the
driver and the built URL, and nothing else from the client config. -/
def create_datasource_request (name : String) (config : DataSourceConfig) :
    String × DataSourceConfigWire :=
  (name, { type := _datasource_type_to_enum config.driver
           url := _build_datasource_url config })

/-- Python "s or t" on protobuf string fields as used for messages
(response.error or ""): the left string when non-empty, else the right. -/
def pyStrOr (a b : String) : String :=
  if a != "" then a else b

/-! Wire reply messages (generated operrouter_pb2; modelled from the
spec, which states that every reply carries a success flag and an error
string, ping replies additionally a healthy flag, and the typed payload
fields read by the source: rows, text, embedding). -/

/-- Wire reply of PingDataSource and PingLLM: healthy and success flags
and an error string. -/
structure PingReplyWire where
  healthy : Bool
  success : Bool
  error : String
deriving Repr, DecidableEq

/-- Wire reply of QueryDataSource: success flag, rows (each a map from
column name to a protobuf Value), and an error string. -/
structure QueryReplyWire where
  success : Bool
  rows : List (List (String × ProtoValue))
  error : String
deriving Repr, DecidableEq

/-- Wire reply of GenerateLLM and ChatLLM: success flag, text, error. -/
structure TextReplyWire where
  success : Bool
  text : String
  error : String
deriving Repr, DecidableEq

/-- Wire reply of EmbeddingLLM: success flag, embedding (floats carried
as 64-bit patterns), error. -/
structure EmbeddingReplyWire where
  success : Bool
  embedding : List Nat
  error : String
deriving Repr, DecidableEq

/-- Response records as the gRPC client fills them: protobuf fields are
statically typed, so success is a Bool and message a String. -/
structure DataSourceResponseRec where
  success : Bool
  message : String
deriving Repr, DecidableEq

/-- Query response record of the gRPC client, rows converted to Python
dictionaries of dynamically typed values. -/
structure DataSourceQueryResponseRec where
  success : Bool
  rows : List (List (String × PyValue))
  message : String
deriving Repr, DecidableEq

/-- LLM response record of the gRPC client. -/
structure LLMResponseRec where
  success : Bool
  message : String
deriving Repr, DecidableEq

/-- LLM generate and chat response record of the gRPC client. -/
structure LLMTextResponseRec where
  success : Bool
  text : String
  message : String
deriving Repr, DecidableEq

/-- LLM embedding response record of the gRPC client. -/
structure LLMEmbeddingResponseRec where
  success : Bool
  embedding : List Nat
  message : String
deriving Repr, DecidableEq

/-- GRPCClient.ping_datasource: the returned record takes its success
directly from the healthy flag of the reply (success := response.healthy)
and its message from response.error or the empty string. -/
def ping_datasource (response : PingReplyWire) : DataSourceResponseRec :=
  { success := response.healthy
    message := pyStrOr response.error "" }

/-- GRPCClient.ping_llm: success taken directly from the healthy flag. -/
def ping_llm (response : PingReplyWire) : LLMResponseRec :=
  { success := response.healthy
    message := pyStrOr response.error "" }

/-- GRPCClient.query_datasource: rows converted entry-wise through
_proto_value_to_python, success and error copied from the reply. -/
def query_datasource (response : QueryReplyWire) : DataSourceQueryResponseRec :=
  { success := response.success
    rows := response.rows.map (fun row =>
      row.map (fun kv => (kv.1, _proto_value_to_python (some kv.2))))
    message := pyStrOr response.error "" }

/-- GRPCClient.generate_llm: text and success copied from the reply. -/
def generate_llm (response : TextReplyWire) : LLMTextResponseRec :=
  { success := response.success
    text := response.text
    message := pyStrOr response.error "" }

/-- GRPCClient.chat_llm: text and success copied from the reply. -/
def chat_llm (response : TextReplyWire) : LLMTextResponseRec :=
  { success := response.success
    text := response.text
    message := pyStrOr response.error "" }

/-- GRPCClient.embedding_llm: embedding copied element-wise
(list(response.embedding)), success copied from the reply. -/
def embedding_llm (response : EmbeddingReplyWire) : LLMEmbeddingResponseRec :=
  { success := response.success
    embedding := response.embedding
    message := pyStrOr response.error "" }

end GRPCClient

/-! Helper lemmas shared by the claim theorems. -/

theorem truthy_bool (b : Bool) : (Json.bool b).truthy = b := rfl

theorem pyOr_bool (a b : Bool) : pyOr (.bool a) (.bool b) = .bool (a || b) := by
  cases a <;> simp [pyOr, Json.truthy]

theorem dictGet_eq_default {fields : JsonObj} {key : String}
    (h : hasKey fields key = false) (d : Json) : dictGet fields key d = d := by
  unfold hasKey at h
  unfold dictGet
  cases hl : lookupField fields key with
  | none => rfl
  | some v => rw [hl] at h; simp at h

/-- C5. The GRPCClient enum-mapping functions are total and fixed:
driver mapping sends postgres to 1, mysql to 2, redis to 3, mongodb to 4,
kafka to 5, provider mapping sends openai to 1, ollama to 2, anthropic
to 3, local to 4, role mapping sends system to 1, user to 2, assistant
to 3, all case-insensitively via lowercasing, and every unrecognized
string maps to 0 without raising (the functions are total). -/
theorem c5_enum_maps_fixed :
    (∀ s : String, GRPCClient._datasource_type_to_enum s =
      (if s.toLower = "postgres" then 1 else if s.toLower = "mysql" then 2
       else if s.toLower = "redis" then 3 else if s.toLower = "mongodb" then 4
       else if s.toLower = "kafka" then 5 else 0))
    ∧ (∀ s : String, GRPCClient._llm_provider_to_enum s =
      (if s.toLower = "openai" then 1 else if s.toLower = "ollama" then 2
       else if s.toLower = "anthropic" then 3 else if s.toLower = "local" then 4
       else 0))
    ∧ (∀ s : String, GRPCClient._message_role_to_enum s =
      (if s.toLower = "system" then 1 else if s.toLower = "user" then 2
       else if s.toLower = "assistant" then 3 else 0)) := by
  refine ⟨fun s => ?_, fun s => ?_, fun s => ?_⟩ <;>
    simp [GRPCClient._datasource_type_to_enum, GRPCClient._llm_provider_to_enum,
      GRPCClient._message_role_to_enum, List.lookup] <;>
    repeat' split <;> simp_all

/-- C6. Decoding after encoding is the identity on every supported kind
of value: None, booleans, integers, floats (carried as their 64-bit
pattern), strings and bytes all round-trip through
GRPCClient._python_value_to_proto and GRPCClient._proto_value_to_python. -/
theorem c6_value_roundtrip :
    GRPCClient._proto_value_to_python
      (some (GRPCClient._python_value_to_proto .none)) = .none
    ∧ (∀ b : Bool, GRPCClient._proto_value_to_python
        (some (GRPCClient._python_value_to_proto (.bool b))) = .bool b)
    ∧ (∀ n : Int, GRPCClient._proto_value_to_python
        (some (GRPCClient._python_value_to_proto (.int n))) = .int n)
    ∧ (∀ bits : Nat, GRPCClient._proto_value_to_python
        (some (GRPCClient._python_value_to_proto (.float bits))) = .float bits)
    ∧ (∀ s : String, GRPCClient._proto_value_to_python
        (some (GRPCClient._python_value_to_proto (.str s))) = .str s)
    ∧ (∀ bs : List Nat, GRPCClient._proto_value_to_python
        (some (GRPCClient._python_value_to_proto (.bytes bs))) = .bytes bs) :=
  ⟨rfl, fun _ => rfl, fun _ => rfl, fun _ => rfl, fun _ => rfl, fun _ => rfl⟩

/-- C3 (amended). A null or absent native pointer does not raise:
FFIClient._call_ffi substitutes the reply dict with success False and
error "FFI call returned null", and the surrounding operation returns a
normally constructed response record carrying that message, with no
deallocation performed. -/
theorem c3_ffi_null_returns_record (parse : String → Option Json) :
    FFIClient.call_ffi Option.none parse =
      (.ok (.obj [("success", .bool false), ("error", .str "FFI call returned null")]), 0)
    ∧ FFIClient.ping Option.none parse =
      (.ok { success := Json.bool false, message := Json.str "FFI call returned null" }, 0)
    ∧ FFIClient.query_datasource Option.none parse =
      (.ok { success := Json.bool false, rows := Json.arr [],
             message := Json.str "FFI call returned null" }, 0) :=
  ⟨rfl, rfl, rfl⟩

/-- C3 counterexample to the claim as stated: on a null pointer,
FFIClient.ping returns an ordinary ok response record (success False,
message "FFI call returned null") instead of surfacing a raised error. -/
theorem c3_ffi_null_no_raise_counterexample :
    (FFIClient.ping Option.none (fun _ => Option.none)).1 =
      .ok { success := Json.bool false, message := Json.str "FFI call returned null" } :=
  rfl

/-- C7 (amended). The deallocation entry point runs exactly once whenever
the native reply is truthy (a non-null pointer to a non-empty string),
on both the JSON-decode success path and the decode failure path; a
falsy reply — a null pointer, or a non-null pointer to a zero-length
string, which the c_char_p conversion makes falsy — takes the
substitute-dict branch and performs no free. -/
theorem c7_ffi_free_exactly_once (s : String) (parse : String → Option Json)
    (h : s ≠ "") :
    (FFIClient.call_ffi (some s) parse).2 = 1
    ∧ (FFIClient.call_ffi (some "") parse).2 = 0
    ∧ (FFIClient.call_ffi Option.none parse).2 = 0 := by
  refine ⟨?_, rfl, rfl⟩
  unfold FFIClient.call_ffi
  simp only [if_neg h]
  cases parse s <;> rfl

/-- C7 witness: the amended theorem applied at a concrete non-empty
reply whose decode fails. -/
theorem c7_ffi_free_exactly_once_witness :
    ("x" : String) ≠ ""
    ∧ ((FFIClient.call_ffi (some "x") (fun _ => Option.none)).2 = 1
       ∧ (FFIClient.call_ffi (some "") (fun _ => Option.none)).2 = 0
       ∧ (FFIClient.call_ffi Option.none (fun _ => Option.none)).2 = 0) :=
  ⟨by decide, c7_ffi_free_exactly_once "x" (fun _ => Option.none) (by decide)⟩

/-- C7 counterexample to the claim as stated: a non-null pointer to a
zero-length reply is falsy under the c_char_p conversion, so
FFIClient._call_ffi takes the null branch and never frees it. -/
theorem c7_ffi_empty_reply_counterexample :
    (FFIClient.call_ffi (some "") (fun _ => Option.none)).2 = 0
    ∧ (0 : Nat) ≠ 1 :=
  ⟨rfl, by decide⟩

/-- C1 (amended). For HTTPClient and FFIClient, ping_datasource and
ping_llm return success equal to the logical OR of the reply's healthy
and success flags, for all four boolean combinations; GRPCClient's
ping_datasource and ping_llm instead report the wire reply's healthy
flag alone, ignoring its success flag. -/
theorem c1_ping_health_or :
    (∀ (fields : JsonObj) (h s : Bool),
      dictGet fields "healthy" (.bool false) = .bool h →
      dictGet fields "success" (.bool false) = .bool s →
      (HTTPClient.ping_datasource_response (.obj fields)).map DataSourceResponse.success
          = .ok (.bool (h || s))
      ∧ (HTTPClient.ping_llm_response (.obj fields)).map LLMResponse.success
          = .ok (.bool (h || s))
      ∧ (FFIClient.ping_datasource_response (.obj fields)).map DataSourceResponse.success
          = .ok (.bool (h || s))
      ∧ (FFIClient.ping_llm_response (.obj fields)).map LLMResponse.success
          = .ok (.bool (h || s)))
    ∧ (∀ r : GRPCClient.PingReplyWire,
      (GRPCClient.ping_datasource r).success = r.healthy
      ∧ (GRPCClient.ping_llm r).success = r.healthy) := by
  constructor
  · intro fields h s hh hs
    refine ⟨?_, ?_, ?_, ?_⟩ <;>
      simp [HTTPClient.ping_datasource_response, HTTPClient.ping_llm_response,
        FFIClient.ping_datasource_response, FFIClient.ping_llm_response,
        Except.map, hh, hs, pyOr_bool]
  · intro r
    exact ⟨rfl, rfl⟩

/-- C1 witness: the amended theorem applied to a reply carrying
healthy True and success False, where the OR yields True. -/
theorem c1_ping_health_or_witness :
    dictGet [("healthy", Json.bool true), ("success", Json.bool false)] "healthy"
      (.bool false) = .bool true
    ∧ dictGet [("healthy", Json.bool true), ("success", Json.bool false)] "success"
      (.bool false) = .bool false
    ∧ (HTTPClient.ping_datasource_response
        (.obj [("healthy", Json.bool true), ("success", Json.bool false)])).map
        DataSourceResponse.success = .ok (.bool (true || false)) :=
  ⟨rfl, rfl,
    (c1_ping_health_or.1 [("healthy", Json.bool true), ("success", Json.bool false)]
      true false rfl rfl).1⟩

/-- C1 counterexample to the claim as stated: on a wire reply with
healthy False and success True, GRPCClient.ping_datasource reports
success False, not the OR of the two flags (which is True). -/
theorem c1_ping_health_or_counterexample :
    (GRPCClient.ping_datasource
      { healthy := false, success := true, error := "" }).success ≠ (false || true) := by
  decide

/-- C2 (amended). Every client copies each success-only payload field
verbatim from the decoded reply, defaulting to empty when the reply
lacks it: a reply without the payload field yields an empty payload
(whatever the success flag), so success False is paired with an empty
payload exactly when the reply itself does not populate the field; a
decodable reply pairing success False with a populated payload is passed
through with both intact. -/
theorem c2_payload_copied :
    (∀ fields : JsonObj, hasKey fields "rows" = false →
      (HTTPClient.query_datasource_response (.obj fields)).map
        DataSourceQueryResponse.rows = .ok (.arr [])
      ∧ (FFIClient.query_datasource_response (.obj fields)).map
        DataSourceQueryResponse.rows = .ok (.arr []))
    ∧ (∀ fields : JsonObj, hasKey fields "text" = false →
      (HTTPClient.generate_llm_response (.obj fields)).map
        LLMGenerateResponse.text = .ok (.str "")
      ∧ (HTTPClient.chat_llm_response (.obj fields)).map
        LLMChatResponse.text = .ok (.str "")
      ∧ (FFIClient.generate_llm_response (.obj fields)).map
        LLMGenerateResponse.text = .ok (.str "")
      ∧ (FFIClient.chat_llm_response (.obj fields)).map
        LLMChatResponse.text = .ok (.str ""))
    ∧ (∀ fields : JsonObj, hasKey fields "embedding" = false →
      (HTTPClient.embedding_llm_response (.obj fields)).map
        LLMEmbeddingResponse.embedding = .ok (.arr [])
      ∧ (FFIClient.embedding_llm_response (.obj fields)).map
        LLMEmbeddingResponse.embedding = .ok (.arr []))
    ∧ (∀ r : GRPCClient.QueryReplyWire, r.rows = [] →
      (GRPCClient.query_datasource r).rows = [])
    ∧ (∀ r : GRPCClient.TextReplyWire, r.text = "" →
      (GRPCClient.generate_llm r).text = "" ∧ (GRPCClient.chat_llm r).text = "")
    ∧ (∀ r : GRPCClient.EmbeddingReplyWire, r.embedding = [] →
      (GRPCClient.embedding_llm r).embedding = []) := by
  refine ⟨fun fields h => ⟨?_, ?_⟩, fun fields h => ⟨?_, ?_, ?_, ?_⟩,
      fun fields h => ⟨?_, ?_⟩, fun r h => ?_, fun r h => ⟨?_, ?_⟩, fun r h => ?_⟩ <;>
    first
    | simp [HTTPClient.query_datasource_response, FFIClient.query_datasource_response,
        HTTPClient.generate_llm_response, HTTPClient.chat_llm_response,
        FFIClient.generate_llm_response, FFIClient.chat_llm_response,
        HTTPClient.embedding_llm_response, FFIClient.embedding_llm_response,
        Except.map, dictGet_eq_default h]
    | simp [GRPCClient.query_datasource, GRPCClient.generate_llm, GRPCClient.chat_llm,
        GRPCClient.embedding_llm, h]

/-- C2 witness: the amended theorem applied to the empty reply object
and to empty wire replies. -/
theorem c2_payload_copied_witness :
    hasKey [] "rows" = false
    ∧ (HTTPClient.query_datasource_response (.obj [])).map
        DataSourceQueryResponse.rows = .ok (.arr [])
    ∧ (GRPCClient.query_datasource { success := false, rows := [], error := "" }).rows = [] :=
  ⟨rfl, (c2_payload_copied.1 [] rfl).1,
    c2_payload_copied.2.2.2.1 { success := false, rows := [], error := "" } rfl⟩

/-- C2 counterexample to the claim as stated: a decodable JSON-RPC body
whose result pairs success False with one row makes
HTTPClient.query_datasource return success False together with a
non-empty rows list. -/
theorem c2_payload_copied_counterexample :
    (HTTPClient.query_datasource
      [("result", Json.obj [("success", Json.bool false), ("rows", Json.arr [Json.obj []])])]).map
      (fun r => (r.success, r.rows)) = .ok (Json.bool false, Json.arr [Json.obj []])
    ∧ Json.arr [Json.obj []] ≠ Json.arr [] := by
  refine ⟨rfl, ?_⟩
  simp

/-- C4. For every HTTPClient operation, a decoded 2xx body containing an
"error" field makes the operation raise ValueError("RPC error: ...") —
it is never coerced into a response record — and a body without an
"error" field makes the operation return the response record built from
the "result" payload (the empty dict when "result" is absent). -/
theorem c4_http_error_raises (data : JsonObj) :
    (hasKey data "error" = true →
      HTTPClient.call_rpc data = .error (.valueError "RPC error" (dictGet data "error" .null))
      ∧ HTTPClient.ping data = .error (.valueError "RPC error" (dictGet data "error" .null))
      ∧ HTTPClient.validate_config data
          = .error (.valueError "RPC error" (dictGet data "error" .null))
      ∧ HTTPClient.load_config data
          = .error (.valueError "RPC error" (dictGet data "error" .null))
      ∧ HTTPClient.get_metadata data
          = .error (.valueError "RPC error" (dictGet data "error" .null))
      ∧ HTTPClient.create_datasource data
          = .error (.valueError "RPC error" (dictGet data "error" .null))
      ∧ HTTPClient.query_datasource data
          = .error (.valueError "RPC error" (dictGet data "error" .null))
      ∧ HTTPClient.execute_datasource data
          = .error (.valueError "RPC error" (dictGet data "error" .null))
      ∧ HTTPClient.insert_datasource data
          = .error (.valueError "RPC error" (dictGet data "error" .null))
      ∧ HTTPClient.ping_datasource data
          = .error (.valueError "RPC error" (dictGet data "error" .null))
      ∧ HTTPClient.close_datasource data
          = .error (.valueError "RPC error" (dictGet data "error" .null))
      ∧ HTTPClient.create_llm data
          = .error (.valueError "RPC error" (dictGet data "error" .null))
      ∧ HTTPClient.generate_llm data
          = .error (.valueError "RPC error" (dictGet data "error" .null))
      ∧ HTTPClient.chat_llm data
          = .error (.valueError "RPC error" (dictGet data "error" .null))
      ∧ HTTPClient.embedding_llm data
          = .error (.valueError "RPC error" (dictGet data "error" .null))
      ∧ HTTPClient.ping_llm data
          = .error (.valueError "RPC error" (dictGet data "error" .null))
      ∧ HTTPClient.close_llm data
          = .error (.valueError "RPC error" (dictGet data "error" .null)))
    ∧ (hasKey data "error" = false →
      HTTPClient.call_rpc data = .ok (dictGet data "result" (.obj []))
      ∧ HTTPClient.ping data
          = HTTPClient.ping_response (dictGet data "result" (.obj []))
      ∧ HTTPClient.validate_config data
          = HTTPClient.validate_config_response (dictGet data "result" (.obj []))
      ∧ HTTPClient.load_config data
          = HTTPClient.load_config_response (dictGet data "result" (.obj []))
      ∧ HTTPClient.get_metadata data
          = HTTPClient.get_metadata_response (dictGet data "result" (.obj []))
      ∧ HTTPClient.create_datasource data
          = HTTPClient.create_datasource_response (dictGet data "result" (.obj []))
      ∧ HTTPClient.query_datasource data
          = HTTPClient.query_datasource_response (dictGet data "result" (.obj []))
      ∧ HTTPClient.execute_datasource data
          = HTTPClient.execute_datasource_response (dictGet data "result" (.obj []))
      ∧ HTTPClient.insert_datasource data
          = HTTPClient.insert_datasource_response (dictGet data "result" (.obj []))
      ∧ HTTPClient.ping_datasource data
          = HTTPClient.ping_datasource_response (dictGet data "result" (.obj []))
      ∧ HTTPClient.close_datasource data
          = HTTPClient.close_datasource_response (dictGet data "result" (.obj []))
      ∧ HTTPClient.create_llm data
          = HTTPClient.create_llm_response (dictGet data "result" (.obj []))
      ∧ HTTPClient.generate_llm data
          = HTTPClient.generate_llm_response (dictGet data "result" (.obj []))
      ∧ HTTPClient.chat_llm data
          = HTTPClient.chat_llm_response (dictGet data "result" (.obj []))
      ∧ HTTPClient.embedding_llm data
          = HTTPClient.embedding_llm_response (dictGet data "result" (.obj []))
      ∧ HTTPClient.ping_llm data
          = HTTPClient.ping_llm_response (dictGet data "result" (.obj []))
      ∧ HTTPClient.close_llm data
          = HTTPClient.close_llm_response (dictGet data "result" (.obj []))) := by
  constructor <;> intro h <;>
    simp [HTTPClient.ping, HTTPClient.validate_config, HTTPClient.load_config,
      HTTPClient.get_metadata, HTTPClient.create_datasource, HTTPClient.query_datasource,
      HTTPClient.execute_datasource, HTTPClient.insert_datasource,
      HTTPClient.ping_datasource, HTTPClient.close_datasource, HTTPClient.create_llm,
      HTTPClient.generate_llm, HTTPClient.chat_llm, HTTPClient.embedding_llm,
      HTTPClient.ping_llm, HTTPClient.close_llm, HTTPClient.call_rpc, h, Except.bind]

/-- C4 witness: the theorem applied to a body carrying an error field
(the operation raises) and to a body with a result payload (the
operation returns the record built from it). -/
theorem c4_http_error_raises_witness :
    hasKey [("error", Json.str "boom")] "error" = true
    ∧ HTTPClient.ping [("error", Json.str "boom")]
        = .error (.valueError "RPC error" (Json.str "boom"))
    ∧ hasKey [("result", Json.obj [("success", Json.bool true)])] "error" = false
    ∧ HTTPClient.ping [("result", Json.obj [("success", Json.bool true)])]
        = HTTPClient.ping_response (Json.obj [("success", Json.bool true)]) :=
  ⟨rfl, ((c4_http_error_raises [("error", Json.str "boom")]).1 rfl).2.1,
    rfl, ((c4_http_error_raises [("result", Json.obj [("success", Json.bool true)])]).2 rfl).2.1⟩

/-- C9 (amended). For every success-carrying operation of HTTPClient and
FFIClient other than ping_datasource and ping_llm, a decoded result
object lacking the "success" key yields a response with success False —
including the empty object HTTPClient substitutes when the body has no
"result" field; for ping_datasource and ping_llm absence of the
"success" key alone is not enough, since a truthy "healthy" key makes
success True, but a result lacking both keys yields success False. -/
theorem c9_missing_success_false (fields : JsonObj)
    (h : hasKey fields "success" = false) :
    ((HTTPClient.ping_response (.obj fields)).map PingResponse.success
        = .ok (.bool false)
    ∧ (HTTPClient.validate_config_response (.obj fields)).map ConfigResponse.success
        = .ok (.bool false)
    ∧ (HTTPClient.load_config_response (.obj fields)).map ConfigResponse.success
        = .ok (.bool false)
    ∧ (HTTPClient.create_datasource_response (.obj fields)).map DataSourceResponse.success
        = .ok (.bool false)
    ∧ (HTTPClient.query_datasource_response (.obj fields)).map DataSourceQueryResponse.success
        = .ok (.bool false)
    ∧ (HTTPClient.execute_datasource_response (.obj fields)).map DataSourceResponse.success
        = .ok (.bool false)
    ∧ (HTTPClient.insert_datasource_response (.obj fields)).map DataSourceResponse.success
        = .ok (.bool false)
    ∧ (HTTPClient.close_datasource_response (.obj fields)).map DataSourceResponse.success
        = .ok (.bool false)
    ∧ (HTTPClient.create_llm_response (.obj fields)).map LLMResponse.success
        = .ok (.bool false)
    ∧ (HTTPClient.generate_llm_response (.obj fields)).map LLMGenerateResponse.success
        = .ok (.bool false)
    ∧ (HTTPClient.chat_llm_response (.obj fields)).map LLMChatResponse.success
        = .ok (.bool false)
    ∧ (HTTPClient.embedding_llm_response (.obj fields)).map LLMEmbeddingResponse.success
        = .ok (.bool false)
    ∧ (HTTPClient.close_llm_response (.obj fields)).map LLMResponse.success
        = .ok (.bool false))
    ∧ ((FFIClient.ping_response (.obj fields)).map PingResponse.success
        = .ok (.bool false)
    ∧ (FFIClient.validate_config_response (.obj fields)).map ConfigResponse.success
        = .ok (.bool false)
    ∧ (FFIClient.load_config_response (.obj fields)).map ConfigResponse.success
        = .ok (.bool false)
    ∧ (FFIClient.create_datasource_response (.obj fields)).map DataSourceResponse.success
        = .ok (.bool false)
    ∧ (FFIClient.query_datasource_response (.obj fields)).map DataSourceQueryResponse.success
        = .ok (.bool false)
    ∧ (FFIClient.execute_datasource_response (.obj fields)).map DataSourceResponse.success
        = .ok (.bool false)
    ∧ (FFIClient.insert_datasource_response (.obj fields)).map DataSourceResponse.success
        = .ok (.bool false)
    ∧ (FFIClient.close_datasource_response (.obj fields)).map DataSourceResponse.success
        = .ok (.bool false)
    ∧ (FFIClient.create_llm_response (.obj fields)).map LLMResponse.success
        = .ok (.bool false)
    ∧ (FFIClient.generate_llm_response (.obj fields)).map LLMGenerateResponse.success
        = .ok (.bool false)
    ∧ (FFIClient.chat_llm_response (.obj fields)).map LLMChatResponse.success
        = .ok (.bool false)
    ∧ (FFIClient.embedding_llm_response (.obj fields)).map LLMEmbeddingResponse.success
        = .ok (.bool false)
    ∧ (FFIClient.close_llm_response (.obj fields)).map LLMResponse.success
        = .ok (.bool false))
    ∧ (hasKey fields "healthy" = false →
      (HTTPClient.ping_datasource_response (.obj fields)).map DataSourceResponse.success
          = .ok (.bool false)
      ∧ (HTTPClient.ping_llm_response (.obj fields)).map LLMResponse.success
          = .ok (.bool false)
      ∧ (FFIClient.ping_datasource_response (.obj fields)).map DataSourceResponse.success
          = .ok (.bool false)
      ∧ (FFIClient.ping_llm_response (.obj fields)).map LLMResponse.success
          = .ok (.bool false))
    ∧ (∀ data : JsonObj, hasKey data "error" = false → hasKey data "result" = false →
      HTTPClient.ping data = .ok { success := .bool false, message := .str "" }) := by
  have hs := dictGet_eq_default h (Json.bool false)
  refine ⟨?_, ?_, fun hh => ?_, fun data he hr => ?_⟩
  · refine ⟨?_, ?_, ?_, ?_, ?_, ?_, ?_, ?_, ?_, ?_, ?_, ?_, ?_⟩ <;>
      simp [HTTPClient.ping_response, HTTPClient.validate_config_response,
        HTTPClient.load_config_response, HTTPClient.create_datasource_response,
        HTTPClient.query_datasource_response, HTTPClient.execute_datasource_response,
        HTTPClient.insert_datasource_response, HTTPClient.close_datasource_response,
        HTTPClient.create_llm_response, HTTPClient.generate_llm_response,
        HTTPClient.chat_llm_response, HTTPClient.embedding_llm_response,
        HTTPClient.close_llm_response, Except.map, hs]
  · refine ⟨?_, ?_, ?_, ?_, ?_, ?_, ?_, ?_, ?_, ?_, ?_, ?_, ?_⟩ <;>
      simp [FFIClient.ping_response, FFIClient.validate_config_response,
        FFIClient.load_config_response, FFIClient.create_datasource_response,
        FFIClient.query_datasource_response, FFIClient.execute_datasource_response,
        FFIClient.insert_datasource_response, FFIClient.close_datasource_response,
        FFIClient.create_llm_response, FFIClient.generate_llm_response,
        FFIClient.chat_llm_response, FFIClient.embedding_llm_response,
        FFIClient.close_llm_response, Except.map, hs]
  · have hg := dictGet_eq_default hh (Json.bool false)
    refine ⟨?_, ?_, ?_, ?_⟩ <;>
      simp [HTTPClient.ping_datasource_response, HTTPClient.ping_llm_response,
        FFIClient.ping_datasource_response, FFIClient.ping_llm_response,
        Except.map, hs, hg, pyOr, Json.truthy]
  · have hres := dictGet_eq_default hr (Json.obj [])
    have hcall : HTTPClient.call_rpc data = .ok (Json.obj []) := by
      simp [HTTPClient.call_rpc, he, hres]
    simp [HTTPClient.ping, hcall, Except.bind, HTTPClient.ping_response,
      dictGet, lookupField, pyOr, Json.truthy]

/-- C9 witness: the amended theorem applied to the empty result object
and the empty body. -/
theorem c9_missing_success_false_witness :
    hasKey [] "success" = false
    ∧ (HTTPClient.ping_response (.obj [])).map PingResponse.success = .ok (.bool false)
    ∧ (FFIClient.ping_datasource_response (.obj [])).map DataSourceResponse.success
        = .ok (.bool false)
    ∧ HTTPClient.ping [] = .ok { success := .bool false, message := .str "" } :=
  ⟨rfl, (c9_missing_success_false [] rfl).1.1,
    ((c9_missing_success_false [] rfl).2.2.1 rfl).2.2.1,
    (c9_missing_success_false [] rfl).2.2.2 [] rfl rfl⟩

/-- C9 counterexample to the claim as stated: a result object lacking the
"success" key but carrying healthy True makes HTTPClient.ping_datasource
report success True, not False. -/
theorem c9_missing_success_false_counterexample :
    hasKey [("healthy", Json.bool true)] "success" = false
    ∧ (HTTPClient.ping_datasource_response (.obj [("healthy", Json.bool true)])).map
        DataSourceResponse.success = .ok (.bool true)
    ∧ Json.bool true ≠ Json.bool false := by
  refine ⟨rfl, rfl, ?_⟩
  simp

/-- C8. FFIClient library loading tries, in order: the explicit path
argument when given, the OPERROUTER_FFI_PATH environment value when set,
the three platform-default shared-library names, then the same names in
the fixed relative bridges directory next to the install location; the
first loadable candidate wins, and when none loads, construction fails
with the fatal message naming the remediation (set OPERROUTER_FFI_PATH
or build the library). -/
theorem c8_load_order (loadable : String → Bool) (p e sd : String)
    (hp : p ≠ "") (he : e ≠ "") :
    FFIClient.load_candidates (some p) (some e) sd
      = p :: e :: (FFIClient.lib_names
          ++ FFIClient.lib_names.map (fun n => FFIClient.pathJoin (FFIClient.bridge_dir sd) n))
    ∧ FFIClient.load_candidates Option.none Option.none sd
      = FFIClient.lib_names
          ++ FFIClient.lib_names.map (fun n => FFIClient.pathJoin (FFIClient.bridge_dir sd) n)
    ∧ (loadable p = true →
        FFIClient.load_ffi_library loadable (some p) (some e) sd = .ok p)
    ∧ (loadable p = false → loadable e = true →
        FFIClient.load_ffi_library loadable (some p) (some e) sd = .ok e)
    ∧ ((∀ c, loadable c = false) →
        FFIClient.load_ffi_library loadable (some p) (some e) sd
          = .error "Failed to load FFI library. Set OPERROUTER_FFI_PATH or build the library.") := by
  have hcands : FFIClient.load_candidates (some p) (some e) sd
      = p :: e :: (FFIClient.lib_names
          ++ FFIClient.lib_names.map (fun n => FFIClient.pathJoin (FFIClient.bridge_dir sd) n)) := by
    simp [FFIClient.load_candidates, bne_iff_ne, hp, he]
  refine ⟨hcands, by simp [FFIClient.load_candidates], fun h1 => ?_, fun h1 h2 => ?_,
    fun hall => ?_⟩
  · simp [FFIClient.load_ffi_library, hcands, List.find?, h1]
  · simp [FFIClient.load_ffi_library, hcands, List.find?, h1, h2]
  · have hnone : (FFIClient.load_candidates (some p) (some e) sd).find? loadable
        = Option.none := by
      rw [List.find?_eq_none]
      intro x _
      simp [hall]
    simp [FFIClient.load_ffi_library, hnone]

/-- C8 witness: the theorem applied with a loader accepting only the
explicit path, which is then the chosen candidate. -/
theorem c8_load_order_witness :
    ("/lib/a.so" : String) ≠ ""
    ∧ ("/lib/b.so" : String) ≠ ""
    ∧ FFIClient.load_ffi_library (fun c => c == "/lib/a.so")
        (some "/lib/a.so") (some "/lib/b.so") "/sdk" = .ok "/lib/a.so" :=
  ⟨by decide, by decide,
    (c8_load_order (fun c => c == "/lib/a.so") "/lib/a.so" "/lib/b.so" "/sdk"
      (by decide) (by decide)).2.2.1 (by decide)⟩

/-- C10. GRPCClient.create_datasource sends only the name plus a
(type, url) pair: for drivers other than postgres and mysql the URL is
driver://host:port, dropping database, username and password; for
postgres and mysql an absent username or password is interpolated by the
Python f-string as the literal text "None" in the credentials position. -/
theorem c10_grpc_url_wire (c : DataSourceConfig) (name : String) :
    (c.driver ≠ "postgres" → c.driver ≠ "mysql" →
      GRPCClient._build_datasource_url c
        = c.driver ++ "://" ++ c.host ++ ":" ++ toString c.port)
    ∧ (c.driver = "postgres" → c.username = Option.none → c.password = Option.none →
      GRPCClient._build_datasource_url c
        = "postgresql://" ++ "None" ++ ":" ++ "None" ++ "@" ++ c.host ++ ":"
            ++ toString c.port ++ "/" ++ c.database)
    ∧ (c.driver = "mysql" → c.username = Option.none → c.password = Option.none →
      GRPCClient._build_datasource_url c
        = "mysql://" ++ "None" ++ ":" ++ "None" ++ "@" ++ c.host ++ ":"
            ++ toString c.port ++ "/" ++ c.database)
    ∧ GRPCClient.create_datasource_request name c
        = (name, { type := GRPCClient._datasource_type_to_enum c.driver
                   url := GRPCClient._build_datasource_url c }) := by
  refine ⟨fun h1 h2 => ?_, fun hd hu hpw => ?_, fun hd hu hpw => ?_, rfl⟩
  · simp [GRPCClient._build_datasource_url, h1, h2]
  · simp [GRPCClient._build_datasource_url, hd, hu, hpw, pyStrOfOpt]
  · simp [GRPCClient._build_datasource_url, hd, hu, hpw, pyStrOfOpt]

/-- C10 witness: the theorem applied to a redis config (URL keeps only
driver, host and port) and to a postgres config without credentials
(URL carries the literal None:None). -/
theorem c10_grpc_url_wire_witness :
    (("redis" : String) ≠ "postgres")
    ∧ (("redis" : String) ≠ "mysql")
    ∧ GRPCClient._build_datasource_url
        { driver := "redis", host := "h", port := 6379, database := "db0",
          username := some "u", password := some "pw" }
        = "redis" ++ "://" ++ "h" ++ ":" ++ toString (6379 : Int)
    ∧ GRPCClient._build_datasource_url
        { driver := "postgres", host := "h", port := 5432, database := "d" }
        = "postgresql://" ++ "None" ++ ":" ++ "None" ++ "@" ++ "h" ++ ":"
            ++ toString (5432 : Int) ++ "/" ++ "d" :=
  ⟨by decide, by decide,
    (c10_grpc_url_wire
      { driver := "redis", host := "h", port := 6379, database := "db0",
        username := some "u", password := some "pw" } "n").1 (by decide) (by decide),
    (c10_grpc_url_wire
      { driver := "postgres", host := "h", port := 5432, database := "d" } "n").2.1
      rfl rfl rfl⟩
